import Mathlib

/-!
Verification development for the katexbot source (`bot.py`).

The program is a Slack bot: it extracts the first `$$...$$`-delimited LaTeX
block from a message, runs the external `katex` CLI on it, wraps the produced
HTML fragment in a fixed HTML template, renders that document with a freshly
launched headless browser, screenshots the bounding box of the `#math`
element, and uploads the image to Slack.

Modelling conventions:
* Python strings are modelled as `List Char` where we reason about their
  structure (the regex scan), and as Lean `String` where they are opaque
  payloads (paths, messages, HTML).  Python `str.strip()` is modelled by
  `pyStrip`, trimming the ASCII whitespace characters recognised by
  `Char.isWhitespace` (space, tab, CR, LF).
* The regex `re.search(r"\$\$(.+?)\$\$", text, re.DOTALL)` from
  `extract_latex` (bot.py lines 21-23) is embedded as `ddSearch`: the match
  starts at the leftmost position where the whole pattern can match, and the
  non-greedy group ends at the earliest closing `$$`; `.` matches any
  character including newlines (DOTALL), and `.+?` requires at least one
  enclosed character.
* Effectful calls (subprocess, pyppeteer, Slack, tempfile) are modelled by an
  oracle environment `Env` fixing the outcome of each external operation, and
  each pipeline function returns the list of observable events it performs
  together with the exception it raises, if any.
-/

set_option maxRecDepth 4000

/-- Bool test for an occurrence of the two-character delimiter `$$` anywhere
in the list (including an occurrence formed by adjacent characters). -/
def containsDD : List Char → Bool
  | x :: y :: rest => if x = '$' ∧ y = '$' then true else containsDD (y :: rest)
  | _ => false

/-- Scan for the first occurrence of `$$`; on success return the characters
strictly before it and the characters strictly after it. -/
def findDD : List Char → Option (List Char × List Char)
  | x :: y :: rest =>
      if x = '$' ∧ y = '$' then some ([], rest)
      else (findDD (y :: rest)).map fun p => (x :: p.1, p.2)
  | _ => none

/-- Embedding of `re.search(r"\$\$(.+?)\$\$", text, re.DOTALL)`: try to match
at the current position (an opening `$$`, at least one enclosed character,
then the earliest closing `$$`, mirroring the non-greedy group); if the whole
pattern cannot match here, retry from the next position, exactly as
`re.search` does.  Returns the text of group 1 on success. -/
def ddSearch : List Char → Option (List Char)
  | x :: y :: z :: rest =>
      if x = '$' ∧ y = '$' then
        match findDD rest with
        | some (pre, _) => some (z :: pre)
        | none => ddSearch (y :: z :: rest)
      else ddSearch (y :: z :: rest)
  | _ => none

/-- Model of Python `str.strip()`: drop whitespace from both ends. -/
def pyStrip (l : List Char) : List Char :=
  ((l.dropWhile Char.isWhitespace).reverse.dropWhile Char.isWhitespace).reverse

/-- bot.py lines 21-23: `extract_latex` returns the stripped text of the
first regex match, or `None` when there is no match. -/
def extract_latex (text : List Char) : Option (List Char) :=
  (ddSearch text).map pyStrip

/-- A list whose cons-extension is delimiter-free is delimiter-free. -/
lemma containsDD_cons_false {x : Char} {l : List Char}
    (h : containsDD (x :: l) = false) : containsDD l = false := by
  cases l with
  | nil => simp [containsDD]
  | cons y r =>
    simp only [containsDD] at h
    split at h
    · exact absurd h (by simp)
    · exact h

/-- The delimiter test is monotone under cons. -/
lemma containsDD_cons_true {x : Char} {l : List Char}
    (h : containsDD l = true) : containsDD (x :: l) = true := by
  cases l with
  | nil => simp [containsDD] at h
  | cons y r =>
    simp only [containsDD]
    split
    · rfl
    · exact h

/-- Any list with an explicit `$$` in the middle passes the delimiter test. -/
lemma containsDD_append_DD (x y : List Char) :
    containsDD (x ++ '$' :: '$' :: y) = true := by
  induction x with
  | nil => simp [containsDD]
  | cons c x' ih => exact containsDD_cons_true ih

/-- A list without any dollar sign stays delimiter-free after appending a
single dollar. -/
lemma containsDD_append_dollar {l : List Char} (h : ∀ x ∈ l, x ≠ '$') :
    containsDD (l ++ ['$']) = false := by
  induction l with
  | nil => simp [containsDD]
  | cons c l' ih =>
    obtain ⟨y, rest, hy⟩ : ∃ y rest, l' ++ ['$'] = y :: rest := by
      cases l' <;> exact ⟨_, _, rfl⟩
    have hc : c ≠ '$' := h c (by simp)
    simp only [List.cons_append, hy, containsDD]
    rw [if_neg (fun hh => hc hh.1), ← hy]
    exact ih (fun x hx => h x (by simp [hx]))

/-- Soundness of the `$$` scan: a successful result splits the list. -/
lemma findDD_sound : ∀ {l pre post : List Char},
    findDD l = some (pre, post) → l = pre ++ '$' :: '$' :: post := by
  intro l
  induction l using findDD.induct with
  | case1 x y rest hxy =>
    intro pre post h
    simp only [findDD, if_pos hxy, Option.some.injEq, Prod.mk.injEq] at h
    obtain ⟨h1, h2⟩ := h
    subst h1; subst h2
    simp [hxy.1, hxy.2]
  | case2 x y rest hxy ih =>
    intro pre post h
    simp only [findDD, if_neg hxy] at h
    cases hfd : findDD (y :: rest) with
    | none => rw [hfd] at h; simp at h
    | some p =>
      obtain ⟨p1, p2⟩ := p
      rw [hfd] at h
      simp only [Option.map_some', Option.some.injEq, Prod.mk.injEq] at h
      obtain ⟨h1, h2⟩ := h
      subst h1; subst h2
      have := ih hfd
      rw [this]
      simp
  | case3 l h =>
    intro pre post hcontra
    rcases l with _ | ⟨a, _ | ⟨b, r⟩⟩
    · simp [findDD] at hcontra
    · simp [findDD] at hcontra
    · exact (h a b r rfl).elim

/-- First-occurrence property of the `$$` scan: what precedes the occurrence
is delimiter-free, even together with the first dollar of the delimiter. -/
lemma findDD_first : ∀ {l pre post : List Char},
    findDD l = some (pre, post) → containsDD (pre ++ ['$']) = false := by
  intro l
  induction l using findDD.induct with
  | case1 x y rest hxy =>
    intro pre post h
    simp only [findDD, if_pos hxy, Option.some.injEq, Prod.mk.injEq] at h
    obtain ⟨h1, _⟩ := h
    subst h1
    simp [containsDD]
  | case2 x y rest hxy ih =>
    intro pre post h
    simp only [findDD, if_neg hxy] at h
    cases hfd : findDD (y :: rest) with
    | none => rw [hfd] at h; simp at h
    | some p =>
      obtain ⟨p1, p2⟩ := p
      rw [hfd] at h
      simp only [Option.map_some', Option.some.injEq, Prod.mk.injEq] at h
      obtain ⟨h1, _⟩ := h
      subst h1
      have hsnd := findDD_sound hfd
      have hfst := ih hfd
      cases hp : p1 with
      | nil =>
        rw [hp] at hsnd
        have hy : y = '$' := by simpa using congrArg (fun l => l.head?) hsnd
        have hx : x ≠ '$' := fun hx => hxy ⟨hx, hy⟩
        simp [containsDD, hx]
      | cons p0 pr =>
        rw [hp] at hsnd hfst
        have hy : y = p0 := by simpa using congrArg (fun l => l.head?) hsnd
        simp only [List.cons_append, containsDD]
        rw [if_neg (fun hh => hxy ⟨hh.1, hy ▸ hh.2⟩)]
        exact hfst
  | case3 l h =>
    intro pre post hcontra
    rcases l with _ | ⟨a, _ | ⟨b, r⟩⟩
    · simp [findDD] at hcontra
    · simp [findDD] at hcontra
    · exact (h a b r rfl).elim

/-- Completeness of the `$$` scan: if the prelude is delimiter-free (also
jointly with the delimiter's first dollar), the scan splits at the
designated occurrence. -/
lemma findDD_complete : ∀ (pre post : List Char),
    containsDD (pre ++ ['$']) = false →
    findDD (pre ++ '$' :: '$' :: post) = some (pre, post)
  | [], post, _ => by simp [findDD]
  | [c], post, h => by
    have hc : c ≠ '$' := by
      intro hc; subst hc; simp [containsDD] at h
    simp [findDD, hc]
  | c :: p :: pr, post, h => by
    have hcp : ¬ (c = '$' ∧ p = '$') := by
      intro ⟨h1, h2⟩
      subst h1; subst h2
      simp [containsDD] at h
    have htl : containsDD ((p :: pr) ++ ['$']) = false :=
      containsDD_cons_false (by simpa using h)
    have ih := findDD_complete (p :: pr) post htl
    simp only [List.cons_append] at ih ⊢
    simp only [findDD, if_neg hcp]
    rw [ih]
    rfl

/-- If the delimiter occurs somewhere, the scan succeeds. -/
lemma findDD_some_of_containsDD : ∀ {l : List Char},
    containsDD l = true → ∃ p, findDD l = some p := by
  intro l
  induction l using findDD.induct with
  | case1 x y rest hxy =>
    intro _
    exact ⟨([], rest), by simp [findDD, hxy]⟩
  | case2 x y rest hxy ih =>
    intro h
    simp only [containsDD, if_neg hxy] at h
    obtain ⟨p, hp⟩ := ih h
    exact ⟨(x :: p.1, p.2), by simp [findDD, if_neg hxy, hp]⟩
  | case3 l h =>
    intro hcontra
    rcases l with _ | ⟨a, _ | ⟨b, r⟩⟩
    · simp [containsDD] at hcontra
    · simp [containsDD] at hcontra
    · exact (h a b r rfl).elim

/-- Stepping lemma: when no match can start at the head position, the search
moves on to the next position. -/
lemma ddSearch_step {x u v : Char} {rest : List Char} (h : ¬ (x = '$' ∧ u = '$')) :
    ddSearch (x :: u :: v :: rest) = ddSearch (u :: v :: rest) := by
  simp only [ddSearch, if_neg h]

/-- Soundness of the regex search: a successful group splits the input into a
preamble, the opening delimiter, the non-empty group, the closing delimiter
and a tail; moreover the group extends only to the earliest closing
delimiter, so its tail is delimiter-free even jointly with the closing
delimiter's first dollar. -/
lemma ddSearch_sound : ∀ {t c : List Char}, ddSearch t = some c →
    ∃ a b, t = a ++ '$' :: '$' :: c ++ '$' :: '$' :: b ∧ c ≠ [] ∧
      containsDD (c.drop 1 ++ ['$']) = false := by
  intro t
  induction t using ddSearch.induct with
  | case1 x y z rest hxy pre q hfd =>
    intro c h
    simp only [ddSearch, if_pos hxy, hfd, Option.some.injEq] at h
    subst h
    refine ⟨[], q, ?_, by simp, ?_⟩
    · have := findDD_sound hfd
      simp [hxy.1, hxy.2, this]
    · simpa using findDD_first hfd
  | case2 x y z rest hxy hfd ih =>
    intro c h
    simp only [ddSearch, if_pos hxy, hfd] at h
    obtain ⟨a, b, ht, hc, hdd⟩ := ih h
    exact ⟨x :: a, b, by simp [ht], hc, hdd⟩
  | case3 x y z rest hxy ih =>
    intro c h
    rw [ddSearch_step hxy] at h
    obtain ⟨a, b, ht, hc, hdd⟩ := ih h
    exact ⟨x :: a, b, by simp [ht], hc, hdd⟩
  | case4 t h =>
    intro c hcontra
    rcases t with _ | ⟨a, _ | ⟨b, _ | ⟨d, r⟩⟩⟩
    · simp [ddSearch] at hcontra
    · simp [ddSearch] at hcontra
    · simp [ddSearch] at hcontra
    · exact (h a b d r rfl).elim

/-- If the input decomposes around a pair of delimiters with non-empty
enclosed content, the regex search succeeds (on some group, not necessarily
the given one). -/
lemma ddSearch_some_of_decomp : ∀ (a : List Char) {c : List Char} (b : List Char),
    c ≠ [] → ∃ r, ddSearch (a ++ '$' :: '$' :: c ++ '$' :: '$' :: b) = some r := by
  intro a
  induction a with
  | nil =>
    intro c b hc
    obtain ⟨ch, c', rfl⟩ : ∃ ch c', c = ch :: c' := by
      cases c with
      | nil => exact absurd rfl hc
      | cons ch c' => exact ⟨ch, c', rfl⟩
    obtain ⟨p, hp⟩ := findDD_some_of_containsDD
      (l := c' ++ '$' :: '$' :: b) (containsDD_append_DD c' b)
    refine ⟨ch :: p.1, ?_⟩
    simp [ddSearch, hp]
  | cons a0 a' ih =>
    intro c b hc
    obtain ⟨r', hr'⟩ := ih b hc
    obtain ⟨u, v, w, hw⟩ :
        ∃ u v w, a' ++ '$' :: '$' :: c ++ '$' :: '$' :: b = u :: v :: w := by
      rcases a' with _ | ⟨a1, _ | ⟨a2, a''⟩⟩ <;> exact ⟨_, _, _, rfl⟩
    simp only [List.cons_append]
    rw [hw]
    rw [hw] at hr'
    by_cases hx : a0 = '$' ∧ u = '$'
    · cases hfd : findDD w with
      | some p => exact ⟨v :: p.1, by simp [ddSearch, if_pos hx, hfd]⟩
      | none => exact ⟨r', by simp only [ddSearch, if_pos hx, hfd]; exact hr'⟩
    · exact ⟨r', by rw [ddSearch_step hx]; exact hr'⟩

/-- Completeness of the regex search: when the decomposition marks the
leftmost delimiter occurrence (no `$$` occurs in the preamble, not even
overlapping the opening delimiter) and the earliest closing delimiter (the
group tail is delimiter-free, also jointly with the closing delimiter), the
search returns exactly the given group. -/
lemma ddSearch_complete : ∀ (a : List Char) {c : List Char} (b : List Char),
    c ≠ [] →
    containsDD (a ++ ['$']) = false →
    containsDD (c.drop 1 ++ ['$']) = false →
    ddSearch (a ++ '$' :: '$' :: c ++ '$' :: '$' :: b) = some c := by
  intro a
  induction a with
  | nil =>
    intro c b hc ha hc2
    obtain ⟨ch, c', rfl⟩ : ∃ ch c', c = ch :: c' := by
      cases c with
      | nil => exact absurd rfl hc
      | cons ch c' => exact ⟨ch, c', rfl⟩
    have hfd := findDD_complete c' b (by simpa using hc2)
    simp [ddSearch, hfd]
  | cons a0 a' ih =>
    intro c b hc ha hc2
    have ha' : containsDD (a' ++ ['$']) = false :=
      containsDD_cons_false (by simpa using ha)
    have ihr := ih b hc ha' hc2
    obtain ⟨u, v, w, hw⟩ :
        ∃ u v w, a' ++ '$' :: '$' :: c ++ '$' :: '$' :: b = u :: v :: w := by
      rcases a' with _ | ⟨a1, _ | ⟨a2, a''⟩⟩ <;> exact ⟨_, _, _, rfl⟩
    have hcond : ¬ (a0 = '$' ∧ u = '$') := by
      rintro ⟨h0, hu⟩
      subst h0
      rcases a' with _ | ⟨a1, a''⟩
      · simp only [List.nil_append] at hw
        obtain ⟨h1, -⟩ := List.cons.injEq .. ▸ hw
        rw [← h1] at hu
        simp [containsDD] at ha
      · simp only [List.cons_append] at hw
        obtain ⟨h1, -⟩ := List.cons.injEq .. ▸ hw
        rw [← h1] at hu
        subst hu
        simp [containsDD] at ha
    simp only [List.cons_append]
    rw [hw, ddSearch_step hcond, ← hw]
    exact ihr

/-- Stripping returns a contiguous slice of its input. -/
lemma pyStrip_between (l : List Char) : ∃ u v, l = u ++ pyStrip l ++ v := by
  refine ⟨l.takeWhile Char.isWhitespace,
    ((l.dropWhile Char.isWhitespace).reverse.takeWhile Char.isWhitespace).reverse, ?_⟩
  conv_lhs => rw [← List.takeWhile_append_dropWhile (p := Char.isWhitespace) (l := l)]
  rw [List.append_assoc]
  congr 1
  show l.dropWhile Char.isWhitespace =
    ((l.dropWhile Char.isWhitespace).reverse.dropWhile Char.isWhitespace).reverse ++
    ((l.dropWhile Char.isWhitespace).reverse.takeWhile Char.isWhitespace).reverse
  rw [← List.reverse_append, List.takeWhile_append_dropWhile, List.reverse_reverse]

/-- Stripping an all-whitespace string yields the empty string. -/
lemma pyStrip_eq_nil {l : List Char} (h : ∀ x ∈ l, Char.isWhitespace x) :
    pyStrip l = [] := by
  unfold pyStrip
  rw [List.dropWhile_eq_nil_iff.mpr (fun x hx => h x hx)]
  rfl

/-- Applying the extractor to a value the extractor returned never matches
again: a returned group contains at most one `$$` occurrence (only at its
very start), never the two disjoint occurrences another match would need. -/
lemma extract_latex_no_rematch : ∀ {t r : List Char},
    extract_latex t = some r → extract_latex r = none := by
  intro t r h
  simp only [extract_latex, Option.map_eq_some'] at h
  obtain ⟨C, hC, hr⟩ := h
  obtain ⟨-, -, -, -, hCdd⟩ := ddSearch_sound hC
  simp only [extract_latex, Option.map_eq_none']
  cases h2 : ddSearch r with
  | none => rfl
  | some r2 =>
    exfalso
    obtain ⟨a, b, hrdec, -, -⟩ := ddSearch_sound h2
    obtain ⟨u, v, hCuv⟩ := pyStrip_between C
    rw [hr] at hCuv
    have hCX : C = (u ++ a ++ '$' :: '$' :: r2) ++ '$' :: '$' :: (b ++ v) := by
      rw [hCuv, hrdec]
      simp [List.append_assoc]
    cases hX : u ++ a ++ '$' :: '$' :: r2 with
    | nil => simp at hX
    | cons x0 X =>
      rw [hX] at hCX
      have hdrop : C.drop 1 = X ++ '$' :: '$' :: (b ++ v) := by
        rw [hCX]; simp
      have htrue : containsDD (C.drop 1 ++ ['$']) = true := by
        have heq : C.drop 1 ++ ['$'] = X ++ '$' :: '$' :: (b ++ v ++ ['$']) := by
          rw [hdrop]; simp [List.append_assoc]
        rw [heq]
        exact containsDD_append_DD X (b ++ v ++ ['$'])
      rw [hCdd] at htrue
      exact absurd htrue (by decide)

/-- Kind of a transient file (the spec's `TransientFile.kind`). -/
inductive FileKind
  | document
  | image
deriving DecidableEq

/-- Result of `element.boundingBox()` when it is not `None`. -/
structure Box where
  x : Int
  y : Int
  width : Int
  height : Int
deriving DecidableEq

/-- The Python exceptions that can reach the handler's `except Exception`
clause: `subprocess.CalledProcessError` from `katex_html` (check=True),
pyppeteer navigation/screenshot failures, the `TypeError` raised by
`box[\x27x\x27]` when `boundingBox()` returned `None`, and Slack upload
failures. -/
inductive PyError
  | calledProcessError (cmd : String) (returncode : Nat) (stderrText : String)
  | navigationError (msg : String)
  | typeError (msg : String)
  | screenshotError (msg : String)
  | uploadError (msg : String)
deriving DecidableEq

/-- Python `str(e)` for the exceptions above.  CPython's
`CalledProcessError.__str__` prints only the command and exit status
(`"Command \x27%s\x27 returned non-zero exit status %d."`); the captured
stderr is carried in the exception's `stderr` attribute (the `stderrText`
field here) but does not appear in the printed message. -/
def pyStr : PyError → String
  | .calledProcessError cmd rc _ =>
      "Command \x27" ++ cmd ++ "\x27 returned non-zero exit status " ++ toString rc ++ "."
  | .navigationError m => m
  | .typeError m => m
  | .screenshotError m => m
  | .uploadError m => m

/-- Observable events of the rendering pipeline, recorded in program order:
transient-file creation (`tempfile.NamedTemporaryFile(delete=False)`),
engine launch (`launch(...)`, the spec's `Starting` transition), page-session
opening (`browser.newPage()`), navigation, screenshot capture,
engine shutdown (`browser.close()`), and file deletion (`os.unlink`). -/
inductive Ev
  | createFile (path : String) (kind : FileKind)
  | launch
  | newPage
  | goto (path : String)
  | screenshot (path : String)
  | closeBrowser
  | deleteFile (path : String)
deriving DecidableEq

/-- Number of occurrences of one event in a trace. -/
def countEv (e : Ev) : List Ev → Nat
  | [] => 0
  | x :: rest => (if x = e then 1 else 0) + countEv e rest

/-- Files present on persistent storage after a trace (paths of created files
not subsequently deleted, most recent first). -/
def remainingFiles (evs : List Ev) : List String :=
  evs.foldl
    (fun acc e =>
      match e with
      | .createFile p _ => p :: acc
      | .deleteFile p => acc.erase p
      | _ => acc)
    []

/-- Oracle environment fixing the outcome of every external operation of one
request: the `katex` subprocess, the tempfile names, the browser (navigation,
element geometry, screenshot) and the Slack upload. -/
structure Env where
  katexReturncode : Nat
  katexStdout : String
  katexStderr : String
  htmlPath : String
  pngPath : String
  gotoFails : Bool
  gotoMsg : String
  mathFound : Bool
  mathBox : Option Box
  bodyBox : Option Box
  screenshotFails : Bool
  screenshotMsg : String
  uploadFails : Bool
  uploadMsg : String
deriving DecidableEq

/-- The Python `str()` of the argument list passed to `subprocess.run`, as it
appears inside `CalledProcessError`'s message. -/
def katexCmdStr : String :=
  "[\x27katex\x27, \x27--no-throw-on-error\x27, \x27--display-mode\x27]"

/-- bot.py lines 26-35: run the `katex` CLI on stdin with
`--no-throw-on-error --display-mode`; `check=True` raises
`CalledProcessError` (carrying the captured stderr) on a non-zero exit
status, else the captured stdout is returned. -/
def katex_html (_latex : String) (env : Env) : Except PyError String :=
  if env.katexReturncode = 0 then Except.ok env.katexStdout
  else Except.error
    (PyError.calledProcessError katexCmdStr env.katexReturncode env.katexStderr)

/-- bot.py lines 37-60, the part of the HTML template before the interpolated
fragment (literal `\x7b\x7d` braces written with escapes). -/
def wrapBefore : String :=
  "<!DOCTYPE html>\n<html>\n<head>\n  <meta charset=\"utf-8\">\n  <link rel=\"stylesheet\" href=\"https://cdn.jsdelivr.net/npm/katex@0.16.8/dist/katex.min.css\">\n  <style>\n    body \x7b\n      margin: 0;\n      padding: 0;\n      display: flex;\n      justify-content: center;\n      align-items: center;\n      height: 100vh;\n    \x7d\n    #math \x7b\n      font-size: 2.5em;\n    \x7d\n  </style>\n</head>\n<body>\n  <div id=\"math\">"

/-- The part of the HTML template after the interpolated fragment. -/
def wrapAfter : String := "</div>\n</body>\n</html>"

/-- bot.py lines 37-60: the f-string wraps the KaTeX fragment verbatim
between the fixed template prelude and the fixed template tail. -/
def wrap_in_html (katexHtml : String) : String :=
  wrapBefore ++ katexHtml ++ wrapAfter

/-- bot.py lines 73-78: `querySelector("#math")` with a fallback to
`querySelector("body")` (a loaded document always has a body node), then
`boundingBox()` on whichever element was selected. -/
def selectedBox (env : Env) : Option Box :=
  if env.mathFound then env.mathBox else env.bodyBox

/-- Message of the `TypeError` raised by `box[\x27x\x27]` when
`element.boundingBox()` returned `None`. -/
def noneTypeMsg : String := "\x27NoneType\x27 object is not subscriptable"

/-- bot.py lines 62-91 (`html_to_png`): write the HTML to a
`NamedTemporaryFile(delete=False)`, `launch` a browser, open a page, navigate
to the file, locate `#math` (or fall back to `body`), crop to its bounding
box, screenshot to `output_path`, close the browser and unlink the HTML
file.  There is no try/finally: any exception skips every later step, so
`browser.close()` and `os.unlink(html_file)` only run on full success.
Returns the event trace and the raised exception, if any. -/
def html_to_png (_html : String) (output_path : String) (env : Env) :
    List Ev × Option PyError :=
  let base := [Ev.createFile env.htmlPath FileKind.document, Ev.launch,
    Ev.newPage, Ev.goto env.htmlPath]
  if env.gotoFails then
    (base, some (PyError.navigationError env.gotoMsg))
  else
    match selectedBox env with
    | none => (base, some (PyError.typeError noneTypeMsg))
    | some _ =>
      if env.screenshotFails then
        (base, some (PyError.screenshotError env.screenshotMsg))
      else
        (base ++ [Ev.screenshot output_path, Ev.closeBrowser,
          Ev.deleteFile env.htmlPath], none)

/-- bot.py lines 93-98: `katex_html`, then `wrap_in_html`, then
`html_to_png` on a fresh event loop; an exception in `katex_html`
propagates before any browser activity. -/
def render_latex_to_png (latex : String) (output_path : String) (env : Env) :
    List Ev × Option PyError :=
  match katex_html latex env with
  | Except.error e => ([], some e)
  | Except.ok frag => html_to_png (wrap_in_html frag) output_path env

/-- Calls the handler makes on the Slack client. -/
inductive SlackAction
  | uploadFile (channel ts path : String)
  | postMessage (channel ts text : String)
deriving DecidableEq

/-- Observable outcome of one `handle_message` invocation. -/
structure HandleResult where
  events : List Ev
  actions : List SlackAction
deriving DecidableEq

/-- bot.py line 125: the error message posted on any exception. -/
def errorText (e : PyError) : String :=
  "Error rendering LaTeX: `" ++ pyStr e ++ "`"

/-- bot.py lines 101-126 (`handle_message`): extract the LaTeX; a `None` or
empty result (`if not latex`) returns silently.  Otherwise create the PNG
`NamedTemporaryFile(delete=False)`, render into it, and upload it; any
exception from rendering or uploading is caught by the single `except`
clause, which posts `errorText`.  Nothing ever deletes the PNG file. -/
def handle_message (env : Env) (channel ts : String) (text : List Char) :
    HandleResult :=
  match extract_latex text with
  | none => ⟨[], []⟩
  | some latex =>
    if latex = [] then ⟨[], []⟩
    else
      match render_latex_to_png (String.mk latex) env.pngPath env with
      | (revs, none) =>
        if env.uploadFails then
          ⟨Ev.createFile env.pngPath FileKind.image :: revs,
            [SlackAction.postMessage channel ts
              (errorText (PyError.uploadError env.uploadMsg))]⟩
        else
          ⟨Ev.createFile env.pngPath FileKind.image :: revs,
            [SlackAction.uploadFile channel ts env.pngPath]⟩
      | (revs, some e) =>
        ⟨Ev.createFile env.pngPath FileKind.image :: revs,
          [SlackAction.postMessage channel ts (errorText e)]⟩

/-- Number of (possibly overlapping) occurrences of `pat` in a character
list: one per position at which `pat` starts. -/
def countSub (pat : List Char) : List Char → Nat
  | [] => 0
  | c :: rest => (if pat <+: (c :: rest) then 1 else 0) + countSub pat rest

/-- Occurrence counting distributes over append when no occurrence can
straddle the boundary (no proper non-empty prefix of `pat` is a suffix of
`a` whose complementary part starts `b`). -/
lemma countSub_append (pat a b : List Char)
    (h : ∀ k, 0 < k → k < pat.length → ¬ (pat.take k <:+ a ∧ pat.drop k <+: b)) :
    countSub pat (a ++ b) = countSub pat a + countSub pat b := by
  induction a with
  | nil => simp [countSub]
  | cons x a' ih =>
    have ih' := ih (fun k hk0 hklt hc =>
      h k hk0 hklt ⟨hc.1.trans (List.suffix_cons x a'), hc.2⟩)
    simp only [List.cons_append, countSub, List.append_eq, ih']
    have hif : (pat <+: x :: (a' ++ b)) ↔ (pat <+: x :: a') := by
      rw [← List.cons_append]
      by_cases hlen : pat.length ≤ (x :: a').length
      · constructor
        · intro hp
          have hpe := List.prefix_iff_eq_take.mp hp
          rw [List.take_append_of_le_length hlen] at hpe
          rw [hpe]
          exact List.take_prefix _ _
        · intro hp
          exact hp.trans (List.prefix_append (x :: a') b)
      · constructor
        · intro hp
          exfalso
          have hklt : (x :: a').length < pat.length := Nat.lt_of_not_le hlen
          have hpe := List.prefix_iff_eq_take.mp hp
          refine h (x :: a').length (by simp) hklt ⟨?_, ?_⟩
          · have hta : pat.take (x :: a').length = x :: a' := by
              rw [hpe, List.take_take, min_eq_left (Nat.le_of_lt hklt),
                List.take_left]
            rw [hta]
          · have htd : pat.drop (x :: a').length =
                b.take (pat.length - (x :: a').length) := by
              conv_lhs => rw [hpe]
              rw [List.drop_take, List.drop_left]
            rw [htd]
            exact List.take_prefix _ _
        · intro hp
          exact absurd hp.length_le hlen
    rw [if_congr hif rfl rfl]
    omega

/-- Whitespace characters are not dollar signs. -/
lemma ws_ne_dollar {x : Char} (h : Char.isWhitespace x = true) : x ≠ '$' :=
  fun hx => by subst hx; exact absurd h (by decide)

/-- C5: for every input string containing at least one double-dollar-delimited
block (content may span lines, and the block is the first one: no `$$`
occurs before or overlapping its opening delimiter, and its content runs to
the earliest closing `$$`), `extract_latex` returns the enclosed content of
that block with leading and trailing whitespace removed; for every input
string containing no such delimiter pair, it returns nothing. -/
theorem claim5_extract_first_block (t : List Char) :
    (∀ a c b, t = a ++ '$' :: '$' :: c ++ '$' :: '$' :: b → c ≠ [] →
      containsDD (a ++ ['$']) = false →
      containsDD (c.drop 1 ++ ['$']) = false →
      extract_latex t = some (pyStrip c))
  ∧ ((¬ ∃ a c b, t = a ++ '$' :: '$' :: c ++ '$' :: '$' :: b ∧ c ≠ []) →
      extract_latex t = none) := by
  constructor
  · intro a c b ht hc ha hc2
    rw [ht, extract_latex, ddSearch_complete a b hc ha hc2]
    rfl
  · intro hno
    cases hdd : ddSearch t with
    | none => simp [extract_latex, hdd]
    | some c =>
      obtain ⟨a, b, ht, hc, -⟩ := ddSearch_sound hdd
      exact absurd ⟨a, c, b, ht, hc⟩ hno

/-- Witness for C5 at concrete inputs: a block is extracted and trimmed, and
an input without a delimiter pair yields nothing. -/
theorem claim5_witness :
    extract_latex ("see $$ x+y $$ thanks".data) = some ("x+y".data)
  ∧ extract_latex ("no dollars here".data) = none := by
  constructor
  · have h := (claim5_extract_first_block ("see $$ x+y $$ thanks".data)).1
      ("see ".data) (" x+y ".data) (" thanks".data)
      (by decide) (by decide) (by decide) (by decide)
    rw [h]; decide
  · refine (claim5_extract_first_block ("no dollars here".data)).2 ?_
    rintro ⟨a, c, b, ht, hc⟩
    obtain ⟨r, hr⟩ := ddSearch_some_of_decomp a b hc
    rw [← ht] at hr
    have hnone : ddSearch ("no dollars here".data) = none := by decide
    rw [hnone] at hr
    exact Option.noConfusion hr

/-- C6 counterexample: the claim asserts extraction is idempotent (applying
extract again to what extract returned yields the same value).  On the
two-block input `$$x$$$$y$$` extraction returns `x`, but applying the
extractor to `x` yields no match, not the same value again. -/
theorem claim6_counterexample :
    extract_latex ("$$x$$$$y$$".data) = some ("x".data)
  ∧ extract_latex ("x".data) ≠ some ("x".data) := by
  exact ⟨by decide, by decide⟩

/-- C6 amended: for input containing two or more delimiter pairs, the result
equals the trimmed content of the first pair (content of later pairs is not
used); but extraction is not idempotent: applying the extractor to any value
it returned yields no match at all (in particular never the same value). -/
theorem claim6_amended :
    (∀ t a c₁ m c₂ b,
      t = a ++ '$' :: '$' :: c₁ ++ '$' :: '$' :: m
        ++ '$' :: '$' :: c₂ ++ '$' :: '$' :: b →
      c₁ ≠ [] → c₂ ≠ [] →
      containsDD (a ++ ['$']) = false →
      containsDD (c₁.drop 1 ++ ['$']) = false →
      extract_latex t = some (pyStrip c₁))
  ∧ (∀ t r, extract_latex t = some r → extract_latex r = none) := by
  constructor
  · intro t a c₁ m c₂ b ht h1 h2 ha hc2
    have ht2 : t = a ++ '$' :: '$' :: c₁
        ++ '$' :: '$' :: (m ++ '$' :: '$' :: c₂ ++ '$' :: '$' :: b) := by
      rw [ht]; simp [List.append_assoc]
    rw [ht2, extract_latex, ddSearch_complete a _ h1 ha hc2]
    rfl
  · exact fun t r h => extract_latex_no_rematch h

/-- Witness for C6 at concrete inputs: a two-block input yields the first
block only, and re-extracting from a returned value yields nothing. -/
theorem claim6_witness :
    extract_latex ("a$$ u $$m$$v$$z".data) = some ("u".data)
  ∧ extract_latex ("u".data) = none := by
  constructor
  · have h := claim6_amended.1 ("a$$ u $$m$$v$$z".data) ("a".data) (" u ".data)
      ("m".data) ("v".data) ("z".data) (by decide) (by decide) (by decide)
      (by decide) (by decide)
    rw [h]; decide
  · exact claim6_amended.2 ("$$u$$".data) ("u".data) (by decide)

/-- C9: a first block enclosing only whitespace makes `extract_latex` return
the empty string, and the handler then behaves exactly as in the no-match
case (no events, no Slack actions, equal to the result on any no-match
input), because Python `if not latex` treats the empty string like `None`;
moreover `$$$$` (adjacent delimiters with no enclosed character) does not
match at all, since the pattern group `.+?` needs at least one character. -/
theorem claim9_whitespace_block :
    (∀ t a c b, t = a ++ '$' :: '$' :: c ++ '$' :: '$' :: b → c ≠ [] →
      (∀ x ∈ c, Char.isWhitespace x) →
      containsDD (a ++ ['$']) = false →
      extract_latex t = some [] ∧
      ∀ env channel ts, handle_message env channel ts t = ⟨[], []⟩ ∧
        (∀ t2, extract_latex t2 = none →
          handle_message env channel ts t2 = handle_message env channel ts t))
  ∧ extract_latex ("$$$$".data) = none := by
  constructor
  · intro t a c b ht hc hws ha
    have hc2 : containsDD (c.drop 1 ++ ['$']) = false :=
      containsDD_append_dollar
        (fun x hx => ws_ne_dollar (hws x (List.drop_subset 1 c hx)))
    have hext : extract_latex t = some [] := by
      rw [ht, extract_latex, ddSearch_complete a b hc ha hc2]
      simp [pyStrip_eq_nil hws]
    refine ⟨hext, fun env channel ts => ⟨?_, fun t2 h2 => ?_⟩⟩
    · simp [handle_message, hext]
    · simp [handle_message, hext, h2]
  · decide

/-- A fully successful oracle environment used by concrete witnesses. -/
def envOk : Env where
  katexReturncode := 0
  katexStdout := "<span class=\"katex-display\">x</span>"
  katexStderr := ""
  htmlPath := "/tmp/tmp41.html"
  pngPath := "/tmp/tmp42.png"
  gotoFails := false
  gotoMsg := ""
  mathFound := true
  mathBox := some ⟨8, 290, 120, 60⟩
  bodyBox := some ⟨0, 0, 800, 600⟩
  screenshotFails := false
  screenshotMsg := ""
  uploadFails := false
  uploadMsg := ""

/-- Witness for C9 at a concrete input: the block `$$ $$` encloses only a
space, extraction yields the empty string, and the handler does nothing. -/
theorem claim9_witness :
    extract_latex ("$$ $$".data) = some []
  ∧ handle_message envOk "C" "T" ("$$ $$".data) = ⟨[], []⟩ := by
  have h := (claim9_whitespace_block).1 ("$$ $$".data) [] (" ".data) []
    (by decide) (by decide) (by decide) (by decide)
  exact ⟨h.1, (h.2 envOk "C" "T").1⟩

/-- The identifier attribute text of the single content element. -/
def idPat : List Char := "id=\"math\"".data

/-- C7 counterexample: the claim quantifies over every fragment string, but
for the fragment `<div id="math">x` the composed document contains two
occurrences of the identifier text `id="math"` (hence two elements bearing
that identifier once parsed), not exactly one. -/
theorem claim7_counterexample :
    countSub idPat ((wrap_in_html "<div id=\"math\">x").data) ≠ 1 := by decide

/-- C7 amended: for every fragment that does not itself contain the
identifier text `id="math"`, the composed document contains exactly one
occurrence of that identifier, and the document wraps the fragment verbatim:
it is exactly the fixed prelude, then the fragment unmodified, then the
fixed tail, where the prelude ends with the opening tag `<div id="math">`
and the tail starts with the closing tag `</div>`. -/
theorem claim7_amended (frag : String) (h : countSub idPat frag.data = 0) :
    countSub idPat ((wrap_in_html frag).data) = 1
  ∧ (wrap_in_html frag).data = wrapBefore.data ++ frag.data ++ wrapAfter.data
  ∧ "<div id=\"math\">".data <:+ wrapBefore.data
  ∧ "</div>".data <+: wrapAfter.data := by
  have hdata : (wrap_in_html frag).data
      = wrapBefore.data ++ frag.data ++ wrapAfter.data := rfl
  have hcond1 : ∀ k, 0 < k → k < idPat.length →
      ¬ (idPat.take k <:+ wrapBefore.data ∧ idPat.drop k <+: frag.data) := by
    intro k hk0 hklt
    rw [show idPat.length = 9 from rfl] at hklt
    interval_cases k <;> exact fun hc => absurd hc.1 (by decide)
  have hcond2 : ∀ k, 0 < k → k < idPat.length →
      ¬ (idPat.take k <:+ (wrapBefore.data ++ frag.data) ∧
        idPat.drop k <+: wrapAfter.data) := by
    intro k hk0 hklt
    rw [show idPat.length = 9 from rfl] at hklt
    interval_cases k <;> exact fun hc => absurd hc.2 (by decide)
  refine ⟨?_, hdata, by decide, by decide⟩
  rw [hdata, countSub_append idPat _ _ hcond2, countSub_append idPat _ _ hcond1,
    h, show countSub idPat wrapBefore.data = 1 from by decide,
    show countSub idPat wrapAfter.data = 0 from by decide]

/-- Witness for C7 at a concrete KaTeX-like fragment without the identifier
text: the composed document carries it exactly once. -/
theorem claim7_witness :
    countSub idPat ((wrap_in_html "<span class=\"katex\">E=mc^2</span>").data) = 1 :=
  (claim7_amended "<span class=\"katex\">E=mc^2</span>" (by decide)).1

/-- Event counting distributes over trace concatenation. -/
lemma countEv_append (e : Ev) (a b : List Ev) :
    countEv e (a ++ b) = countEv e a + countEv e b := by
  induction a with
  | nil => simp [countEv]
  | cons x a' ih =>
    simp only [List.cons_append, countEv, List.append_eq, ih]
    omega

/-- Every call of `html_to_png` launches exactly one browser instance. -/
lemma html_to_png_launch (html out : String) (env : Env) :
    countEv Ev.launch (html_to_png html out env).1 = 1 := by
  unfold html_to_png
  split
  · simp [countEv]
  · split
    · simp [countEv]
    · split
      · simp [countEv]
      · simp [countEv, countEv_append]

/-- Every call of `html_to_png` opens exactly one page session. -/
lemma html_to_png_newPage (html out : String) (env : Env) :
    countEv Ev.newPage (html_to_png html out env).1 = 1 := by
  unfold html_to_png
  split
  · simp [countEv]
  · split
    · simp [countEv]
    · split
      · simp [countEv]
      · simp [countEv, countEv_append]

/-- On success, `html_to_png` closes the browser exactly once. -/
lemma html_to_png_close_success (html out : String) (env : Env)
    (h : (html_to_png html out env).2 = none) :
    countEv Ev.closeBrowser (html_to_png html out env).1 = 1 := by
  unfold html_to_png at h ⊢
  split at h
  · simp at h
  · split at h
    · simp at h
    · split at h
      · simp at h
      · simp_all [countEv, countEv_append]

/-- On any failure, `html_to_png` never closes the browser (there is no
try/finally around the pyppeteer calls). -/
lemma html_to_png_close_failure (html out : String) (env : Env) (e : PyError)
    (h : (html_to_png html out env).2 = some e) :
    countEv Ev.closeBrowser (html_to_png html out env).1 = 0 := by
  unfold html_to_png at h ⊢
  split at h
  · simp_all [countEv]
  · split at h
    · simp_all [countEv]
    · split at h
      · simp_all [countEv]
      · simp at h

/-- C1 counterexample: the engine is not reused.  Two sequential render calls
with valid markup against a fully successful environment perform two
`Starting` (launch) transitions, refuting the claim that no second
`Starting` transition occurs. -/
theorem claim1_counterexample :
    ¬ countEv Ev.launch
      ((render_latex_to_png "x" envOk.pngPath envOk).1
        ++ (render_latex_to_png "x" envOk.pngPath envOk).1) ≤ 1 := by decide

/-- C1 amended: the rendering engine instance is not process-wide and not
persistent: every `html_to_png` call launches its own fresh engine instance
(exactly one `Starting` transition per call), on success that instance is
closed before the call returns rather than retained, and any two sequential
calls perform two `Starting` transitions. -/
theorem claim1_amended :
    (∀ html out env, countEv Ev.launch (html_to_png html out env).1 = 1)
  ∧ (∀ html out env, (html_to_png html out env).2 = none →
      countEv Ev.closeBrowser (html_to_png html out env).1 = 1)
  ∧ (∀ html out env html2 out2 env2,
      countEv Ev.launch ((html_to_png html out env).1
        ++ (html_to_png html2 out2 env2).1) = 2) :=
  ⟨html_to_png_launch,
   html_to_png_close_success,
   fun html out env html2 out2 env2 => by
    rw [countEv_append, html_to_png_launch, html_to_png_launch]⟩

/-- Witness for C1 amended at a concrete successful environment. -/
theorem claim1_witness :
    countEv Ev.closeBrowser (html_to_png "h" "/tmp/tmp42.png" envOk).1 = 1 :=
  claim1_amended.2.1 "h" "/tmp/tmp42.png" envOk (by decide)

/-- Environment in which page navigation raises. -/
def envGotoFail : Env :=
  { envOk with gotoFails := true, gotoMsg := "net::ERR_FAILED" }

/-- C3 counterexample: in a render whose navigation fails, the page session
was opened (one `newPage`) but the browser, and with it the session, is
never closed — refuting the claim that the session is closed on every
outcome. -/
theorem claim3_counterexample :
    countEv Ev.newPage (html_to_png "h" "/tmp/tmp42.png" envGotoFail).1 = 1
  ∧ countEv Ev.closeBrowser (html_to_png "h" "/tmp/tmp42.png" envGotoFail).1 = 0 :=
  ⟨by decide, by decide⟩

/-- C3 amended: every render opens exactly one page session, and the browser
(the whole engine, together with its session) is closed exactly when the
capture succeeds: on success it is closed once, while on every failure after
session creation (navigation, element geometry, screenshot) it is not closed
at all. -/
theorem claim3_amended :
    (∀ html out env, countEv Ev.newPage (html_to_png html out env).1 = 1)
  ∧ (∀ html out env, (html_to_png html out env).2 = none →
      countEv Ev.closeBrowser (html_to_png html out env).1 = 1)
  ∧ (∀ html out env e, (html_to_png html out env).2 = some e →
      countEv Ev.closeBrowser (html_to_png html out env).1 = 0) :=
  ⟨html_to_png_newPage, html_to_png_close_success, html_to_png_close_failure⟩

/-- Witness for C3 amended: closed once on a successful render, not closed on
a navigation failure. -/
theorem claim3_witness :
    countEv Ev.closeBrowser (html_to_png "h" "/tmp/o.png" envOk).1 = 1
  ∧ countEv Ev.closeBrowser (html_to_png "h" "/tmp/o.png" envGotoFail).1 = 0 :=
  ⟨claim3_amended.2.1 "h" "/tmp/o.png" envOk (by decide),
   claim3_amended.2.2 "h" "/tmp/o.png" envGotoFail
     (PyError.navigationError "net::ERR_FAILED") (by decide)⟩

/-- C8: when no node with identifier `#math` is found, the crop step falls
back to the document's root content node (`body`) — by itself never a hard
failure: with geometry available the render still succeeds; and when the
selected node's bounding rectangle cannot be computed (`boundingBox()` is
`None`, e.g. zero layout area), the operation fails — in the source this
surfaces as the `TypeError` raised by subscripting `None`, the failure the
spec names `ElementGeometryUnavailable`. -/
theorem claim8_fallback_geometry :
    (∀ env, env.mathFound = false → selectedBox env = env.bodyBox)
  ∧ (∀ html out env bx, env.mathFound = false → env.gotoFails = false →
      env.bodyBox = some bx → env.screenshotFails = false →
      (html_to_png html out env).2 = none)
  ∧ (∀ html out env, env.gotoFails = false → selectedBox env = none →
      (html_to_png html out env).2 = some (PyError.typeError noneTypeMsg)) := by
  refine ⟨fun env hm => by simp [selectedBox, hm], ?_, ?_⟩
  · intro html out env bx hm hg hb hs
    simp [html_to_png, hg, selectedBox, hm, hb, hs]
  · intro html out env hg hsel
    simp [html_to_png, hg, hsel]

/-- Environment in which `#math` is absent but the body has geometry. -/
def envNoMath : Env := { envOk with mathFound := false }

/-- Environment in which `#math` is absent and the body has no bounding box. -/
def envNoBox : Env := { envOk with mathFound := false, bodyBox := none }

/-- Witness for C8: fallback render succeeds; missing geometry fails with the
`TypeError`. -/
theorem claim8_witness :
    (html_to_png "h" "/tmp/tmp42.png" envNoMath).2 = none
  ∧ (html_to_png "h" "/tmp/tmp42.png" envNoBox).2
      = some (PyError.typeError noneTypeMsg) :=
  ⟨claim8_fallback_geometry.2.1 "h" "/tmp/tmp42.png" envNoMath ⟨0, 0, 800, 600⟩
      (by decide) (by decide) (by decide) (by decide),
   claim8_fallback_geometry.2.2 "h" "/tmp/tmp42.png" envNoBox
      (by decide) (by decide)⟩

/-- The full event trace of a request whose render and capture succeed. -/
lemma handle_message_success_trace (env : Env) (channel ts : String)
    (text latex : List Char) (bx : Box)
    (hext : extract_latex text = some latex) (hne : latex ≠ [])
    (hk : env.katexReturncode = 0) (hg : env.gotoFails = false)
    (hbx : selectedBox env = some bx) (hs : env.screenshotFails = false) :
    (handle_message env channel ts text).events =
      [Ev.createFile env.pngPath FileKind.image,
       Ev.createFile env.htmlPath FileKind.document, Ev.launch, Ev.newPage,
       Ev.goto env.htmlPath, Ev.screenshot env.pngPath, Ev.closeBrowser,
       Ev.deleteFile env.htmlPath] := by
  cases hu : env.uploadFails <;>
    simp [handle_message, hext, hne, render_latex_to_png, katex_html, hk,
      html_to_png, hg, hbx, hs, hu]

/-- The full event trace of a request whose navigation fails. -/
lemma handle_message_gotofail_trace (env : Env) (channel ts : String)
    (text latex : List Char)
    (hext : extract_latex text = some latex) (hne : latex ≠ [])
    (hk : env.katexReturncode = 0) (hg : env.gotoFails = true) :
    (handle_message env channel ts text).events =
      [Ev.createFile env.pngPath FileKind.image,
       Ev.createFile env.htmlPath FileKind.document, Ev.launch, Ev.newPage,
       Ev.goto env.htmlPath] := by
  simp [handle_message, hext, hne, render_latex_to_png, katex_html, hk,
    html_to_png, hg]

/-- On any failure of `html_to_png` the trace stops after navigation: the
HTML tempfile was created but no screenshot, close or unlink happened.  This
covers all three failure kinds: navigation, missing element geometry, and
screenshot. -/
lemma html_to_png_fail_events (html out : String) (env : Env) (e : PyError)
    (h : (html_to_png html out env).2 = some e) :
    (html_to_png html out env).1 =
      [Ev.createFile env.htmlPath FileKind.document, Ev.launch, Ev.newPage,
       Ev.goto env.htmlPath] := by
  unfold html_to_png at h ⊢
  split at h
  · simp_all
  · split at h
    · simp_all
    · split at h
      · simp_all
      · simp at h

/-- The full event trace of a request in which katex succeeds but the render
step fails for any reason after the HTML tempfile is created (navigation,
element geometry, or screenshot). -/
lemma handle_message_renderfail_trace (env : Env) (channel ts : String)
    (text latex : List Char) (e : PyError)
    (hext : extract_latex text = some latex) (hne : latex ≠ [])
    (hk : env.katexReturncode = 0)
    (hfail : (html_to_png (wrap_in_html env.katexStdout) env.pngPath env).2
      = some e) :
    (handle_message env channel ts text).events =
      [Ev.createFile env.pngPath FileKind.image,
       Ev.createFile env.htmlPath FileKind.document, Ev.launch, Ev.newPage,
       Ev.goto env.htmlPath] := by
  have h1 := html_to_png_fail_events (wrap_in_html env.katexStdout)
    env.pngPath env e hfail
  cases hres : html_to_png (wrap_in_html env.katexStdout) env.pngPath env with
  | mk revs res =>
    rw [hres] at h1 hfail
    simp only at h1 hfail
    subst h1
    subst hfail
    simp [handle_message, hext, hne, render_latex_to_png, katex_html, hk, hres]

/-- The events of any handled request take one of four shapes: nothing (no
or empty markup), only the PNG tempfile (katex failed), PNG and HTML
tempfiles with browser activity but no cleanup (goto, geometry or screenshot
failed), or the full successful trace. -/
lemma handle_message_events_shape (env : Env) (channel ts : String)
    (text : List Char) :
    (handle_message env channel ts text).events = []
  ∨ (handle_message env channel ts text).events
      = [Ev.createFile env.pngPath FileKind.image]
  ∨ (handle_message env channel ts text).events
      = [Ev.createFile env.pngPath FileKind.image,
         Ev.createFile env.htmlPath FileKind.document, Ev.launch, Ev.newPage,
         Ev.goto env.htmlPath]
  ∨ (handle_message env channel ts text).events
      = [Ev.createFile env.pngPath FileKind.image,
         Ev.createFile env.htmlPath FileKind.document, Ev.launch, Ev.newPage,
         Ev.goto env.htmlPath, Ev.screenshot env.pngPath, Ev.closeBrowser,
         Ev.deleteFile env.htmlPath] := by
  cases hext : extract_latex text with
  | none => left; simp [handle_message, hext]
  | some latex =>
    by_cases hl : latex = []
    · left; simp [handle_message, hext, hl]
    · by_cases hk : env.katexReturncode = 0
      · by_cases hg : env.gotoFails
        · right; right; left
          simp [handle_message, hext, hl, render_latex_to_png, katex_html, hk,
            html_to_png, hg]
        · cases hbx : selectedBox env with
          | none =>
            right; right; left
            simp [handle_message, hext, hl, render_latex_to_png, katex_html,
              hk, html_to_png, hg, hbx]
          | some bx =>
            by_cases hs : env.screenshotFails
            · right; right; left
              simp [handle_message, hext, hl, render_latex_to_png, katex_html,
                hk, html_to_png, hg, hbx, hs]
            · right; right; right
              cases hu : env.uploadFails <;>
                simp [handle_message, hext, hl, render_latex_to_png,
                  katex_html, hk, html_to_png, hg, hbx, hs, hu]
      · right; left
        simp [handle_message, hext, hl, render_latex_to_png, katex_html, hk]

/-- C2 counterexample: on a fully successful request the PNG tempfile
(`NamedTemporaryFile(delete=False)` in `handle_message`) is never deleted,
so a transient image file remains on persistent storage — refuting both the
"deleted exactly once" and the "zero files remain" parts of the claim. -/
theorem claim2_counterexample :
    countEv (Ev.deleteFile "/tmp/tmp42.png")
      (handle_message envOk "C" "T" ("$$x$$".data)).events = 0
  ∧ remainingFiles (handle_message envOk "C" "T" ("$$x$$".data)).events
      = ["/tmp/tmp42.png"] :=
  ⟨by decide, by decide⟩

/-- C2 amended: the handler never deletes the transient image file it
creates; the transient document file is deleted exactly once on the fully
successful path, but zero times when any render step after its creation
fails (navigation, element geometry, or screenshot); so after a successful
render the image file remains on storage, and after any such render failure
both the document and the image file remain. -/
theorem claim2_amended (env : Env) (channel ts : String) (text latex : List Char)
    (hext : extract_latex text = some latex) (hne : latex ≠ [])
    (hpaths : env.htmlPath ≠ env.pngPath) :
    countEv (Ev.deleteFile env.pngPath)
      (handle_message env channel ts text).events = 0
  ∧ (∀ bx, env.katexReturncode = 0 → env.gotoFails = false →
      selectedBox env = some bx → env.screenshotFails = false →
      countEv (Ev.deleteFile env.htmlPath)
        (handle_message env channel ts text).events = 1
      ∧ remainingFiles (handle_message env channel ts text).events
          = [env.pngPath])
  ∧ (∀ e, env.katexReturncode = 0 →
      (html_to_png (wrap_in_html env.katexStdout) env.pngPath env).2 = some e →
      countEv (Ev.deleteFile env.htmlPath)
        (handle_message env channel ts text).events = 0
      ∧ remainingFiles (handle_message env channel ts text).events
          = [env.htmlPath, env.pngPath]) := by
  refine ⟨?_, ?_, ?_⟩
  · obtain h | h | h | h := handle_message_events_shape env channel ts text <;>
      rw [h] <;> simp [countEv, hpaths]
  · intro bx hk hg hbx hs
    rw [handle_message_success_trace env channel ts text latex bx hext hne hk
      hg hbx hs]
    constructor
    · simp [countEv, hpaths]
    · simp [remainingFiles]
  · intro e hk hfail
    rw [handle_message_renderfail_trace env channel ts text latex e hext hne
      hk hfail]
    constructor
    · simp [countEv]
    · simp [remainingFiles]

/-- Witness for C2 amended at concrete environments: the successful path
never deletes the PNG file; a geometry failure (`boundingBox()` returning
`None` in `envNoBox`) leaves both the HTML and the PNG file behind. -/
theorem claim2_witness :
    countEv (Ev.deleteFile "/tmp/tmp42.png")
      (handle_message envOk "C" "T" ("$$x$$".data)).events = 0
  ∧ remainingFiles (handle_message envNoBox "C" "T" ("$$x$$".data)).events
      = ["/tmp/tmp41.html", "/tmp/tmp42.png"] :=
  ⟨(claim2_amended envOk "C" "T" ("$$x$$".data) ("x".data) (by decide)
      (by decide) (by decide)).1,
   ((claim2_amended envNoBox "C" "T" ("$$x$$".data) ("x".data) (by decide)
      (by decide) (by decide)).2.2 (PyError.typeError noneTypeMsg)
      (by decide) (by decide)).2⟩

/-- C10: when the Slack upload raises after a successful render, the single
`except` clause around render and upload posts the same error shape as a
render failure — `Error rendering LaTeX:` with the exception text in
backticks — even though rendering succeeded: the screenshot to the image
file is in the trace, and nothing deleted that file afterwards. -/
theorem claim10_upload_error_path (env : Env) (channel ts : String)
    (text latex : List Char) (bx : Box)
    (hext : extract_latex text = some latex) (hne : latex ≠ [])
    (hk : env.katexReturncode = 0) (hg : env.gotoFails = false)
    (hbx : selectedBox env = some bx) (hs : env.screenshotFails = false)
    (hu : env.uploadFails = true) (hpaths : env.htmlPath ≠ env.pngPath) :
    (handle_message env channel ts text).actions =
      [SlackAction.postMessage channel ts
        ("Error rendering LaTeX: `" ++ env.uploadMsg ++ "`")]
  ∧ Ev.screenshot env.pngPath ∈ (handle_message env channel ts text).events
  ∧ countEv (Ev.deleteFile env.pngPath)
      (handle_message env channel ts text).events = 0 := by
  have htr := handle_message_success_trace env channel ts text latex bx hext
    hne hk hg hbx hs
  refine ⟨?_, ?_, ?_⟩
  · simp [handle_message, hext, hne, render_latex_to_png, katex_html, hk,
      html_to_png, hg, hbx, hs, hu, errorText, pyStr]
  · rw [htr]; simp
  · rw [htr]; simp [countEv, hpaths]

/-- Environment in which everything succeeds except the Slack upload. -/
def envUpFail : Env :=
  { envOk with uploadFails := true, uploadMsg := "invalid_auth" }

/-- Witness for C10 at a concrete environment: the upload failure is posted
through the render-error message, while the screenshot really happened. -/
theorem claim10_witness :
    (handle_message envUpFail "C" "T" ("$$x$$".data)).actions =
      [SlackAction.postMessage "C" "T"
        ("Error rendering LaTeX: `" ++ "invalid_auth" ++ "`")]
  ∧ Ev.screenshot "/tmp/tmp42.png"
      ∈ (handle_message envUpFail "C" "T" ("$$x$$".data)).events :=
  ⟨(claim10_upload_error_path envUpFail "C" "T" ("$$x$$".data) ("x".data)
      ⟨8, 290, 120, 60⟩ (by decide) (by decide) (by decide) (by decide)
      (by decide) (by decide) (by decide) (by decide)).1,
   (claim10_upload_error_path envUpFail "C" "T" ("$$x$$".data) ("x".data)
      ⟨8, 290, 120, 60⟩ (by decide) (by decide) (by decide) (by decide)
      (by decide) (by decide) (by decide) (by decide)).2.1⟩

/-- Environment in which the katex subprocess exits with status 1. -/
def envKatexFail : Env :=
  { envOk with
    katexReturncode := 1,
    katexStderr := "ParseError: KaTeX parse error: Expected group after \x27^\x27" }

/-- C4 counterexample: when katex exits non-zero, the error surfaced at the
request boundary is the `CalledProcessError` message, which states the
command and exit status only; the stderr diagnostic text is not contained in
the posted message, refuting the claim that it is. -/
theorem claim4_counterexample :
    (handle_message envKatexFail "C" "T" ("$$x^$$".data)).actions =
      [SlackAction.postMessage "C" "T"
        (errorText (PyError.calledProcessError katexCmdStr 1
          envKatexFail.katexStderr))]
  ∧ ¬ (envKatexFail.katexStderr.data <:+:
      (errorText (PyError.calledProcessError katexCmdStr 1
        envKatexFail.katexStderr)).data) :=
  ⟨by decide, by decide⟩

/-- C4 amended: on a non-zero katex exit status, `katex_html` fails with a
`CalledProcessError` that carries the engine's stderr diagnostic as a field,
and the message surfaced at the request boundary is the exception's printed
form — the command and exit status (`Command ... returned non-zero exit
status N.`), not the stderr diagnostic text. -/
theorem claim4_amended (env : Env) (channel ts : String)
    (text latex : List Char)
    (hext : extract_latex text = some latex) (hne : latex ≠ [])
    (hk : env.katexReturncode ≠ 0) :
    katex_html (String.mk latex) env = Except.error
      (PyError.calledProcessError katexCmdStr env.katexReturncode
        env.katexStderr)
  ∧ (handle_message env channel ts text).actions =
      [SlackAction.postMessage channel ts
        (errorText (PyError.calledProcessError katexCmdStr
          env.katexReturncode env.katexStderr))]
  ∧ pyStr (PyError.calledProcessError katexCmdStr env.katexReturncode
        env.katexStderr) =
      "Command \x27" ++ katexCmdStr ++ "\x27 returned non-zero exit status "
        ++ toString env.katexReturncode ++ "." := by
  refine ⟨by simp [katex_html, hk], ?_, rfl⟩
  simp [handle_message, hext, hne, render_latex_to_png, katex_html, hk]

/-- Witness for C4 amended at a concrete environment and message. -/
theorem claim4_witness :
    katex_html (String.mk ("x^".data)) envKatexFail = Except.error
      (PyError.calledProcessError katexCmdStr 1 envKatexFail.katexStderr)
  ∧ (handle_message envKatexFail "C2" "T2" ("$$x^$$".data)).actions =
      [SlackAction.postMessage "C2" "T2"
        (errorText (PyError.calledProcessError katexCmdStr 1
          envKatexFail.katexStderr))] :=
  ⟨(claim4_amended envKatexFail "C2" "T2" ("$$x^$$".data) ("x^".data)
      (by decide) (by decide) (by decide)).1,
   (claim4_amended envKatexFail "C2" "T2" ("$$x^$$".data) ("x^".data)
      (by decide) (by decide) (by decide)).2.1⟩
